import Mathlib

/-!
Verification development for the EternalGov governance subsystem.

The Python sources are shallowly embedded: each Python class becomes a Lean
structure holding the same fields, each method a pure Lean function from the
old state (and the method arguments) to the new state or result.  Python
dicts become insertion-ordered association lists with the update-in-place
semantics of dict assignment; Python floats become rationals; datetime
timestamps are passed in as opaque strings where a method reads the clock.
-/

namespace EternalGov

/-! ### Association-list model of Python dict -/

/-- Lookup a key, first match (Python dict keys are unique so this is the
dict read). -/
def alookup {β : Type} (k : String) : List (String × β) → Option β
  | [] => none
  | (k2, v) :: rest => if k2 = k then some v else alookup k rest

/-- Python dict assignment d[k] = v: replace the value in place when the key
is present, keep its position; otherwise append the binding at the end. -/
def aupsert {β : Type} (k : String) (v : β) : List (String × β) → List (String × β)
  | [] => [(k, v)]
  | (k2, v2) :: rest => if k2 = k then (k, v) :: rest else (k2, v2) :: aupsert k v rest

theorem alookup_aupsert_self {β : Type} (k : String) (v : β) :
    ∀ l : List (String × β), alookup k (aupsert k v l) = some v := by
  intro l
  induction l with
  | nil => simp [aupsert, alookup]
  | cons hd tl ih =>
    obtain ⟨k2, v2⟩ := hd
    by_cases h : k2 = k
    · simp [aupsert, h, alookup]
    · simp [aupsert, h, alookup, ih]

theorem alookup_aupsert_ne {β : Type} (k k2 : String) (v : β) (h : k ≠ k2) :
    ∀ l : List (String × β), alookup k2 (aupsert k v l) = alookup k2 l := by
  intro l
  induction l with
  | nil => simp [aupsert, alookup, h]
  | cons hd tl ih =>
    obtain ⟨k3, v3⟩ := hd
    by_cases h3 : k3 = k
    · subst h3
      simp [aupsert, alookup, h]
    · simp [aupsert, h3, alookup, ih]

/-! ### ProposalMemory (src/src/memory_layers/proposal_memory.py) -/

/-- Python dataclass ProposalMemoryEntry.  The optional embedding field is
never set by any embedded operation and is dropped; key_arguments is an
association list like every dict. -/
structure ProposalMemoryEntry where
  proposal_id : String
  dao : String
  title : String
  body : String
  author : String
  created_at : String
  end_time : String
  choices : List String
  category : String
  url : String
  reasoning_points : List String
  key_arguments : List (String × List String)
  expected_impact : String
  status : String
deriving DecidableEq, Repr

/-- Python class ProposalMemory: the proposals dict and the dao index.  The
membase_account field and the print-only _sync_to_membase call carry no
state and are dropped. -/
structure ProposalMemory where
  proposals : List (String × ProposalMemoryEntry)
  dao_index : List (String × List String)
deriving DecidableEq, Repr

def ProposalMemory.init : ProposalMemory := { proposals := [], dao_index := [] }

/-- ProposalMemory.store_proposal: build the entry (defaulted fields as in
the dataclass), assign proposals[proposal_id] = entry, then ensure the dao
key exists in dao_index and append the id to its list.  The Python method
performs no validation and has no error path. -/
def store_proposal (m : ProposalMemory) (proposal_id dao title body author
    created_at end_time : String) (choices : List String) (url category : String) :
    ProposalMemory :=
  let entry : ProposalMemoryEntry :=
    { proposal_id := proposal_id, dao := dao, title := title, body := body,
      author := author, created_at := created_at, end_time := end_time,
      choices := choices, category := category, url := url,
      reasoning_points := [], key_arguments := [], expected_impact := "",
      status := "active" }
  let proposals2 := aupsert proposal_id entry m.proposals
  let cur := (alookup dao m.dao_index).getD []
  { proposals := proposals2, dao_index := aupsert dao (cur ++ [proposal_id]) m.dao_index }

/-- ProposalMemory.get_proposal. -/
def get_proposal (m : ProposalMemory) (proposal_id : String) :
    Option ProposalMemoryEntry :=
  alookup proposal_id m.proposals

/-! ### OutcomeMemory (src/src/memory_layers/outcome_memory.py) -/

/-- Python dataclass ProposalOutcome. -/
structure ProposalOutcome where
  proposal_id : String
  dao : String
  passed : Bool
  final_votes : List (String × Int)
  participation_rate : ℚ
  participation_count : Int
  recorded_at : String
  predicted_vs_actual : Option String
deriving DecidableEq, Repr

/-- Python class OutcomeMemory: outcomes dict and per-dao prediction
accuracy dict. -/
structure OutcomeMemory where
  outcomes : List (String × ProposalOutcome)
  prediction_accuracy : List (String × ℚ)
deriving DecidableEq, Repr

def OutcomeMemory.init : OutcomeMemory := { outcomes := [], prediction_accuracy := [] }

/-- OutcomeMemory.record_proposal_outcome; the datetime.utcnow timestamp is
passed in as recorded_at. -/
def record_proposal_outcome (m : OutcomeMemory) (proposal_id dao : String)
    (passed : Bool) (final_votes : List (String × Int))
    (participation_count total_eligible : Int) (recorded_at : String) : OutcomeMemory :=
  let participation_rate : ℚ :=
    if total_eligible > 0 then (participation_count : ℚ) / (total_eligible : ℚ) else 0
  let outcome : ProposalOutcome :=
    { proposal_id := proposal_id, dao := dao, passed := passed,
      final_votes := final_votes, participation_rate := participation_rate,
      participation_count := participation_count, recorded_at := recorded_at,
      predicted_vs_actual := none }
  { m with outcomes := aupsert proposal_id outcome m.outcomes }

/-- OutcomeMemory._update_accuracy_metrics: exponential moving average of
the accuracy for the dao of the named outcome, prior value 0.5 when the dao
has none. -/
def update_accuracy_metrics (m : OutcomeMemory) (proposal_id : String)
    (was_correct : Bool) : OutcomeMemory :=
  match alookup proposal_id m.outcomes with
  | none => m
  | some o =>
    let current_acc := (alookup o.dao m.prediction_accuracy).getD (1/2)
    let new_value : ℚ := if was_correct then 1 else 0
    { m with prediction_accuracy :=
        aupsert o.dao (current_acc * (4/5) + new_value * (1/5)) m.prediction_accuracy }

/-- OutcomeMemory.record_prediction: when the proposal has a recorded
outcome, tag predicted_vs_actual and update the accuracy metrics; otherwise
the method body is skipped entirely.  The confidence argument is unused by
the Python method and is kept for signature fidelity. -/
def record_prediction (m : OutcomeMemory) (proposal_id predicted_outcome
    actual_outcome : String) (_confidence : ℚ) : OutcomeMemory :=
  match alookup proposal_id m.outcomes with
  | none => m
  | some o =>
    let tag := if predicted_outcome = actual_outcome then "correct" else "incorrect"
    let o2 := { o with predicted_vs_actual := some tag }
    let m2 := { m with outcomes := aupsert proposal_id o2 m.outcomes }
    update_accuracy_metrics m2 proposal_id (predicted_outcome = actual_outcome)

/-- OutcomeMemory.get_dao_outcomes: the outcomes whose dao matches, in dict
iteration (insertion) order. -/
def get_dao_outcomes (m : OutcomeMemory) (dao : String) : List ProposalOutcome :=
  (m.outcomes.map Prod.snd).filter (fun o => o.dao = dao)

/-- OutcomeMemory.get_pass_rate: 0.5 when the dao has no outcomes, else the
count of passed outcomes over the total count. -/
def get_pass_rate (m : OutcomeMemory) (dao : String) : ℚ :=
  let outcomes := get_dao_outcomes m dao
  if outcomes = [] then 1/2
  else ((outcomes.filter (fun o => o.passed)).length : ℚ) / (outcomes.length : ℚ)

/-! ### SentimentMemory (src/src/memory_layers/sentiment_memory.py) -/

/-- Python dataclass SentimentEntry; the recorded_at default timestamp is
passed in. -/
structure SentimentEntry where
  proposal_id : String
  dao : String
  source : String
  sentiment_score : ℚ
  support_count : Int
  opposition_count : Int
  neutral_count : Int
  key_topics : List String
  recorded_at : String
deriving DecidableEq, Repr

/-- Python class SentimentMemory: per-proposal entry lists and score
trends. -/
structure SentimentMemory where
  sentiment_entries : List (String × List SentimentEntry)
  sentiment_trends : List (String × List ℚ)
deriving DecidableEq, Repr

def SentimentMemory.init : SentimentMemory :=
  { sentiment_entries := [], sentiment_trends := [] }

/-- SentimentMemory.record_sentiment: create the lists for a new proposal
id, then append the entry and the raw score. -/
def record_sentiment (m : SentimentMemory) (proposal_id dao source : String)
    (sentiment_score : ℚ) (support_count opposition_count neutral_count : Int)
    (topics : List String) (recorded_at : String) : SentimentMemory :=
  let entry : SentimentEntry :=
    { proposal_id := proposal_id, dao := dao, source := source,
      sentiment_score := sentiment_score, support_count := support_count,
      opposition_count := opposition_count, neutral_count := neutral_count,
      key_topics := topics, recorded_at := recorded_at }
  let cur := (alookup proposal_id m.sentiment_entries).getD []
  let curTrend := (alookup proposal_id m.sentiment_trends).getD []
  { sentiment_entries := aupsert proposal_id (cur ++ [entry]) m.sentiment_entries,
    sentiment_trends := aupsert proposal_id (curTrend ++ [sentiment_score]) m.sentiment_trends }

/-- Per-source aggregate row of the by_source dict built by
get_proposal_sentiment. -/
structure SourceAggregate where
  average_sentiment : ℚ
  support_count : Int
  opposition_count : Int
  entries : Nat
deriving DecidableEq, Repr

/-- Aggregated sentiment returned by get_proposal_sentiment for a proposal
with at least one entry (the Python method returns the empty dict
otherwise, embedded as none). -/
structure ProposalSentiment where
  proposal_id : String
  overall_sentiment_score : ℚ
  by_source : List (String × SourceAggregate)
  total_entries : Nat
  last_updated : Option String
deriving DecidableEq, Repr

/-- The grouping loop of get_proposal_sentiment: group entries by source in
first-seen order, each group keeping recording order. -/
def group_by_source (entries : List SentimentEntry) :
    List (String × List SentimentEntry) :=
  entries.foldl (fun acc e =>
    match alookup e.source acc with
    | none => acc ++ [(e.source, [e])]
    | some l => aupsert e.source (l ++ [e]) acc) []

/-- SentimentMemory.get_proposal_sentiment: none when the proposal has no
entries; otherwise per-source averages plus the overall mean over every
individual entry regardless of source. -/
def get_proposal_sentiment (m : SentimentMemory) (proposal_id : String) :
    Option ProposalSentiment :=
  let entries := (alookup proposal_id m.sentiment_entries).getD []
  if entries = [] then none
  else
    let aggregated := (group_by_source entries).map (fun g =>
      (g.1, { average_sentiment :=
                ((g.2.map SentimentEntry.sentiment_score).sum) / (g.2.length : ℚ),
              support_count := (g.2.map SentimentEntry.support_count).sum,
              opposition_count := (g.2.map SentimentEntry.opposition_count).sum,
              entries := g.2.length : SourceAggregate }))
    let overall_score := ((entries.map SentimentEntry.sentiment_score).sum) / (entries.length : ℚ)
    some { proposal_id := proposal_id,
           overall_sentiment_score := overall_score,
           by_source := aggregated,
           total_entries := entries.length,
           last_updated := (entries.getLast?).map SentimentEntry.recorded_at }

/-- SentimentMemory.get_community_consensus: classify the overall sentiment
score with the strict threshold chain; "neutral" when the proposal has no
sentiment data. -/
def get_community_consensus (m : SentimentMemory) (proposal_id : String) : String :=
  match get_proposal_sentiment m proposal_id with
  | none => "neutral"
  | some sentiment =>
    let score := sentiment.overall_sentiment_score
    if score > 3/5 then "strong_support"
    else if score > 1/5 then "moderate_support"
    else if score > -(1/5) then "neutral"
    else if score > -(3/5) then "concern"
    else "strong_opposition"

/-! ### VoteReasoning (src/src/reasoning/vote_reasoning.py) -/

/-- Python dataclass ReasoningContext.  The two score maps are dicts of
source name to score. -/
structure ReasoningContext where
  proposal_id : String
  proposal_title : String
  proposal_body : String
  dao : String
  voting_options : List String
  community_sentiment : List (String × ℚ)
  historical_preferences : List (String × ℚ)
  arguments_for : List String
  arguments_against : List String
  expected_impact : String
deriving DecidableEq, Repr

/-- Python dataclass VoteDecision. -/
structure VoteDecision where
  proposal_id : String
  choice : String
  confidence : ℚ
  reasoning_summary : String
  primary_factors : List String
  secondary_factors : List String
  alignment_with_dao_values : ℚ
  risk_assessment : String
deriving DecidableEq, Repr

/-- sum(d.values()) / len(d) if d else 0 — the mean the decision heuristic
takes over each score dict. -/
def meanValues (l : List (String × ℚ)) : ℚ :=
  if l = [] then 0 else (l.map Prod.snd).sum / (l.length : ℚ)

/-- VoteReasoning._build_reasoning_summary.  The fixed prose and the joined
factor lists are kept; the two-decimal rendering of each sentiment score is
abstracted by toString on the rational, which no claim depends on. -/
def build_reasoning_summary (ctx : ReasoningContext) (choice : String)
    (primary secondary : List String) : String :=
  "EternalGov Vote Analysis for: " ++ ctx.proposal_title ++
  "\n\nRecommendation: " ++ choice.toUpper ++
  "\n\nPrimary Factors:\n" ++
  String.intercalate "\n" (primary.map (fun f => "  - " ++ f)) ++
  "\n\nSecondary Factors:\n" ++
  String.intercalate "\n" (secondary.map (fun f => "  - " ++ f)) ++
  "\n\nCommunity Sentiment Analysis:\n" ++
  String.intercalate "\n" (ctx.community_sentiment.map
    (fun sc => "  - " ++ sc.1 ++ ": " ++ toString sc.2)) ++
  "\n\nExpected Impact: " ++ String.mk (ctx.expected_impact.data.take 200) ++ "..." ++
  "\n\nThis recommendation aligns with historical DAO values and community preferences."

/-- VoteReasoning._generate_decision: the deterministic three-branch
heuristic over the mean sentiment and mean preference scores. -/
def generate_decision (ctx : ReasoningContext) : VoteDecision :=
  let overall_sentiment := meanValues ctx.community_sentiment
  let preference_alignment := meanValues ctx.historical_preferences
  let branch1 := overall_sentiment > 1/2 ∧ preference_alignment > 1/2
  let branch2 := overall_sentiment < -(3/10) ∨ preference_alignment < 3/10
  let choice :=
    if branch1 then ctx.voting_options.headD "for"
    else if branch2 then ctx.voting_options.getLastD "against"
    else if ctx.voting_options.length > 1 then ctx.voting_options.getD 1 "abstain"
    else "abstain"
  let confidence : ℚ := if branch1 then 3/4 else if branch2 then 3/5 else 1/2
  let primary :=
    if branch1 then ["strong_community_support", "alignment_with_values"]
    else if branch2 then ["community_concerns", "misalignment_with_preferences"]
    else ["mixed_signals"]
  let secondary :=
    if branch1 then ["positive_expected_impact"]
    else if branch2 then ["potential_risks"]
    else ["requires_further_analysis"]
  let risk := if branch1 then "low" else "medium"
  { proposal_id := ctx.proposal_id,
    choice := choice,
    confidence := confidence,
    reasoning_summary := build_reasoning_summary ctx choice primary secondary,
    primary_factors := primary,
    secondary_factors := secondary,
    alignment_with_dao_values := (overall_sentiment + preference_alignment) / 2,
    risk_assessment := risk }

/-! ### JustificationReporter (src/src/reasoning/justification_reporter.py)

The content hash is hashlib.sha256(reasoning.encode()).hexdigest()[:16].
SHA-256 is embedded below over byte lists, with 32-bit words carried as
naturals reduced mod 2^32. -/

/-- UTF-8 encoding of one character (what str.encode produces per code
point). -/
def utf8EncodeChar (c : Char) : List Nat :=
  let n := c.toNat
  if n < 128 then [n]
  else if n < 2048 then [192 ||| (n >>> 6), 128 ||| (n &&& 63)]
  else if n < 65536 then
    [224 ||| (n >>> 12), 128 ||| ((n >>> 6) &&& 63), 128 ||| (n &&& 63)]
  else
    [240 ||| (n >>> 18), 128 ||| ((n >>> 12) &&& 63),
     128 ||| ((n >>> 6) &&& 63), 128 ||| (n &&& 63)]

/-- UTF-8 bytes of a string. -/
def utf8Encode (s : String) : List Nat :=
  (s.data.map utf8EncodeChar).flatten

/-- Reduce to a 32-bit word. -/
def w32 (n : Nat) : Nat := n % 4294967296

/-- Rotate a 32-bit word right by n bits. -/
def rotr (n x : Nat) : Nat := w32 ((x >>> n) ||| (x <<< (32 - n)))

def smallSigma0 (x : Nat) : Nat := (rotr 7 x) ^^^ (rotr 18 x) ^^^ (x >>> 3)
def smallSigma1 (x : Nat) : Nat := (rotr 17 x) ^^^ (rotr 19 x) ^^^ (x >>> 10)
def bigSigma0 (x : Nat) : Nat := (rotr 2 x) ^^^ (rotr 13 x) ^^^ (rotr 22 x)
def bigSigma1 (x : Nat) : Nat := (rotr 6 x) ^^^ (rotr 11 x) ^^^ (rotr 25 x)

/-- SHA-256 initial hash values. -/
def sha256H0 : List Nat :=
  [1779033703, 3144134277, 1013904242,
   2773480762, 1359893119, 2600822924,
   528734635, 1541459225]

/-- SHA-256 round constants. -/
def sha256K : List Nat :=
  [1116352408, 1899447441, 3049323471,
   3921009573, 961987163, 1508970993,
   2453635748, 2870763221, 3624381080,
   310598401, 607225278, 1426881987,
   1925078388, 2162078206, 2614888103,
   3248222580, 3835390401, 4022224774,
   264347078, 604807628, 770255983,
   1249150122, 1555081692, 1996064986,
   2554220882, 2821834349, 2952996808,
   3210313671, 3336571891, 3584528711,
   113926993, 338241895, 666307205,
   773529912, 1294757372, 1396182291,
   1695183700, 1986661051, 2177026350,
   2456956037, 2730485921, 2820302411,
   3259730800, 3345764771, 3516065817,
   3600352804, 4094571909, 275423344,
   430227734, 506948616, 659060556,
   883997877, 958139571, 1322822218,
   1537002063, 1747873779, 1955562222,
   2024104815, 2227730452, 2361852424,
   2428436474, 2756734187, 3204031479,
   3329325298]

/-- Big-endian 8-byte encoding of the bit length. -/
def bigEndian8 (n : Nat) : List Nat :=
  [(n >>> 56) &&& 255, (n >>> 48) &&& 255, (n >>> 40) &&& 255, (n >>> 32) &&& 255,
   (n >>> 24) &&& 255, (n >>> 16) &&& 255, (n >>> 8) &&& 255, n &&& 255]

/-- SHA-256 padding: append 0x80, zeros to 56 mod 64, then the bit length. -/
def sha256Pad (msg : List Nat) : List Nat :=
  let L := msg.length
  let z := (120 - ((L + 1) % 64)) % 64
  msg ++ [128] ++ List.replicate z 0 ++ bigEndian8 (8 * L)

/-- Pack bytes into big-endian 32-bit words. -/
def toWords : List Nat → List Nat
  | b0 :: b1 :: b2 :: b3 :: rest =>
    ((b0 <<< 24) + (b1 <<< 16) + (b2 <<< 8) + b3) :: toWords rest
  | _ => []

/-- Split a word list into 16-word blocks (the padded input is always a
multiple of 16 words; a shorter trailer cannot occur and is dropped). -/
def chunk16 : List Nat → List (List Nat)
  | w0 :: w1 :: w2 :: w3 :: w4 :: w5 :: w6 :: w7 ::
    w8 :: w9 :: w10 :: w11 :: w12 :: w13 :: w14 :: w15 :: rest =>
    [w0, w1, w2, w3, w4, w5, w6, w7, w8, w9, w10, w11, w12, w13, w14, w15] ::
      chunk16 rest
  | _ => []

/-- One extension step of the message schedule. -/
def scheduleStep (w : List Nat) : List Nat :=
  w ++ [w32 (smallSigma1 (w.getD (w.length - 2) 0) + w.getD (w.length - 7) 0 +
             smallSigma0 (w.getD (w.length - 15) 0) + w.getD (w.length - 16) 0)]

/-- The 64-word message schedule of one block. -/
def schedule (block : List Nat) : List Nat :=
  (List.range 48).foldl (fun w _ => scheduleStep w) block

/-- One SHA-256 compression round on the eight working registers. -/
def compressRound (regs : List Nat) (k w : Nat) : List Nat :=
  match regs with
  | [a, b, c, d, e, f, g, h] =>
    let s1 := bigSigma1 e
    let ch := (e &&& f) ^^^ ((e ^^^ 4294967295) &&& g)
    let t1 := w32 (h + s1 + ch + k + w)
    let s0 := bigSigma0 a
    let maj := (a &&& b) ^^^ (a &&& c) ^^^ (b &&& c)
    let t2 := w32 (s0 + maj)
    [w32 (t1 + t2), a, b, c, w32 (d + t1), e, f, g]
  | other => other

/-- Compress one 16-word block into the running hash. -/
def compressBlock (h : List Nat) (block : List Nat) : List Nat :=
  let w := schedule block
  let regs := (sha256K.zip w).foldl (fun r kw => compressRound r kw.1 kw.2) h
  List.zipWith (fun x y => w32 (x + y)) h regs

/-- SHA-256 digest of a byte list, as 32 bytes. -/
def sha256Bytes (msg : List Nat) : List Nat :=
  let blocks := chunk16 (toWords (sha256Pad msg))
  let hFinal := blocks.foldl compressBlock sha256H0
  (hFinal.map (fun wo =>
    [(wo >>> 24) &&& 255, (wo >>> 16) &&& 255, (wo >>> 8) &&& 255, wo &&& 255])).flatten

/-- Lowercase hex digit. -/
def hexDigit (n : Nat) : Char :=
  if n < 10 then Char.ofNat (48 + n) else Char.ofNat (87 + n)

/-- Two lowercase hex characters of one byte. -/
def byteToHex (b : Nat) : List Char := [hexDigit (b / 16), hexDigit (b % 16)]

/-- hashlib.sha256(bytes).hexdigest() as a char list (64 hex characters). -/
def sha256HexChars (msg : List Nat) : List Char :=
  ((sha256Bytes msg).map byteToHex).flatten

/-- JustificationReporter._hash_justification:
hashlib.sha256(reasoning.encode()).hexdigest()[:16]. -/
def hash_justification (reasoning : String) : String :=
  String.mk ((sha256HexChars (utf8Encode reasoning)).take 16)

example : hash_justification "" = "e3b0c44298fc1c14" := by decide

/-- The fixed keyword list of _calculate_transparency_score. -/
def detailKeywords : List (List Char) :=
  ["analyze".data, "consider".data, "evidence".data, "data".data,
   "pattern".data, "trend".data]

/-- Boolean substring test (Python: needle in haystack). -/
def containsSub (needle : List Char) : List Char → Bool
  | [] => needle.isEmpty
  | c :: rest => needle.isPrefixOf (c :: rest) || containsSub needle rest

/-- Count of detail keywords found case-insensitively in the reasoning
text: sum(1 for kw in detail_keywords if kw in reasoning.lower()). -/
def keywordCount (reasoning : String) : Nat :=
  (detailKeywords.filter
    (fun kw => containsSub kw (reasoning.data.map Char.toLower))).length

/-- JustificationReporter._calculate_transparency_score: length tier plus
source-count tier plus capped keyword bonus, clamped to at most 1. -/
def calculate_transparency_score (reasoning : String)
    (data_sources : List (String × String)) : ℚ :=
  let score0 : ℚ := 0
  let score1 := score0 +
    (if reasoning.length > 1000 then (3/10 : ℚ)
     else if reasoning.length > 500 then 2/10 else 0)
  let num_sources := data_sources.length
  let score2 := score1 +
    (if num_sources ≥ 3 then (4/10 : ℚ)
     else if num_sources ≥ 2 then 3/10
     else if num_sources ≥ 1 then 2/10 else 0)
  let score3 := score2 + min (3/10) ((keywordCount reasoning : ℚ) * (5/100))
  min 1 score3

/-! ### GovernanceOrchestrator (src/eternal_gov.py, run_governance_cycle)

The cycle body is one try block: ingest, then a for loop over the first 3
returned proposals running ANALYZE, DECIDE/JUSTIFY and optional CAST per
proposal; a single except handler at cycle level prints the failure.  The
per-proposal processing is abstracted as a step function returning Except
(the Python phases either return or raise); the ingest call likewise.  The
observable result is which proposals completed processing and whether the
cycle-level handler fired. -/

structure CycleResult where
  processed : List String
  failed : Bool
deriving DecidableEq, Repr

/-- The for loop inside the try block: process proposals in order; the
first raise propagates out of the loop to the cycle-level handler, so
nothing after it runs. -/
def cycleLoop (step : String → Except String Unit) : List String → CycleResult
  | [] => { processed := [], failed := false }
  | p :: rest =>
    match step p with
    | Except.error _ => { processed := [], failed := true }
    | Except.ok _ =>
      let r := cycleLoop step rest
      { r with processed := p :: r.processed }

/-- EternalGov.run_governance_cycle: ingest, then the loop over the first
three proposals, all inside one try; any raise reaches the single except
handler which marks the cycle failed. -/
def run_governance_cycle (ingest : Except String (List String))
    (step : String → Except String Unit) : CycleResult :=
  match ingest with
  | Except.error _ => { processed := [], failed := true }
  | Except.ok proposals => cycleLoop step (proposals.take 3)

/-! ## Claims -/

/-! ### C2 — store_proposal performs no validation -/

/-- C2 counterexample: the claim says a store call whose entry misses the
id, the organization and the title is rejected with a ValidationError and
stores nothing, the proposals map and the organization index unchanged.
Storing an entry whose id, organization and title are all empty changes
both maps: nothing is rejected, the method has no error path at all. -/
theorem store_proposal_counterexample :
    (store_proposal ProposalMemory.init "" "" "" "" "" "" "" [] "" "general").proposals ≠
      ProposalMemory.init.proposals ∧
    (store_proposal ProposalMemory.init "" "" "" "" "" "" "" [] "" "general").dao_index ≠
      ProposalMemory.init.dao_index := by
  decide

/-- C2 amended: store_proposal validates nothing and always stores.  For
every prior state and every field assignment — including an entry whose id,
organization and title are empty — the call stores the entry: afterwards
the proposals map holds the freshly built entry under the id. -/
theorem store_proposal_always_stores (m : ProposalMemory)
    (pid dao ttl bdy auth cre fin : String) (choices : List String)
    (url category : String) :
    get_proposal (store_proposal m pid dao ttl bdy auth cre fin choices url category) pid =
      some { proposal_id := pid, dao := dao, title := ttl, body := bdy,
             author := auth, created_at := cre, end_time := fin,
             choices := choices, category := category, url := url,
             reasoning_points := [], key_arguments := [], expected_impact := "",
             status := "active" } := by
  simp [get_proposal, store_proposal, alookup_aupsert_self]

/-! ### C3 — the dao index appends unconditionally -/

/-- C3 counterexample: the claim says the organization index appends a
proposal id only when the id is new to that organization, so an id occurs
at most once and a re-store leaves the index unchanged.  Storing the same
id twice for the same organization puts the id into the index twice. -/
theorem dao_index_counterexample :
    alookup "d1" (store_proposal
        (store_proposal ProposalMemory.init "p1" "d1" "t" "b" "a" "c" "e" ["yes"] "u" "general")
        "p1" "d1" "t" "b" "a" "c" "e" ["yes"] "u" "general").dao_index =
      some ["p1", "p1"] ∧
    (store_proposal
        (store_proposal ProposalMemory.init "p1" "d1" "t" "b" "a" "c" "e" ["yes"] "u" "general")
        "p1" "d1" "t" "b" "a" "c" "e" ["yes"] "u" "general").dao_index ≠
      (store_proposal ProposalMemory.init "p1" "d1" "t" "b" "a" "c" "e" ["yes"] "u" "general").dao_index := by
  decide

/-- C3 amended: every store_proposal call appends the proposal id to the
organization index unconditionally — the index list for the organization
afterwards is the previous list (empty when the organization was unseen)
with the id appended, whether or not the id was already present, so
re-storing an already stored id duplicates it in the index. -/
theorem dao_index_always_appends (m : ProposalMemory)
    (pid dao ttl bdy auth cre fin : String) (choices : List String)
    (url category : String) :
    alookup dao (store_proposal m pid dao ttl bdy auth cre fin choices url category).dao_index =
      some ((alookup dao m.dao_index).getD [] ++ [pid]) := by
  simp [store_proposal, alookup_aupsert_self]

/-! ### C5 — pass rate default versus computed value -/

/-- An outcome store with two outcomes for one organization, one passed
and one failed. -/
def passRateHalfState : OutcomeMemory :=
  { outcomes :=
      [("p1", { proposal_id := "p1", dao := "d1", passed := true,
                final_votes := [("for", 60)], participation_rate := 3/5,
                participation_count := 60, recorded_at := "t1",
                predicted_vs_actual := none }),
       ("p2", { proposal_id := "p2", dao := "d1", passed := false,
                final_votes := [("for", 20)], participation_rate := 2/5,
                participation_count := 40, recorded_at := "t2",
                predicted_vs_actual := none })],
    prediction_accuracy := [] }

/-- C5 counterexample: the claim says get_pass_rate returns 0.5 if and only
if the store holds no outcomes for the organization.  With two recorded
outcomes of which one passed, the computed rate passed/total is exactly
0.5 while the outcome list is not empty, refuting the only-if direction. -/
theorem pass_rate_counterexample :
    get_pass_rate passRateHalfState "d1" = 1/2 ∧
    get_dao_outcomes passRateHalfState "d1" ≠ [] := by
  constructor
  · simp +decide [get_pass_rate, get_dao_outcomes, passRateHalfState]
  · simp +decide [get_dao_outcomes, passRateHalfState]

/-- C5 amended: get_pass_rate returns 0.5 when the organization has no
recorded outcomes, and otherwise the count of passed outcomes over the
total count — a value that can itself equal 0.5, so 0.5 is not returned
only in the empty case. -/
theorem pass_rate_spec (m : OutcomeMemory) (dao : String) :
    (get_dao_outcomes m dao = [] → get_pass_rate m dao = 1/2) ∧
    (get_dao_outcomes m dao ≠ [] →
      get_pass_rate m dao =
        (((get_dao_outcomes m dao).filter (fun o => o.passed)).length : ℚ) /
          ((get_dao_outcomes m dao).length : ℚ)) := by
  constructor
  · intro h
    simp [get_pass_rate, h]
  · intro h
    simp [get_pass_rate, h]

/-- C5 witness: the empty store evaluates to the default 0.5. -/
theorem pass_rate_spec_witness : get_pass_rate OutcomeMemory.init "d1" = 1/2 :=
  (pass_rate_spec OutcomeMemory.init "d1").1 rfl

/-! ### C4 — record_prediction tags and updates the accuracy EMA -/

/-- C4 counterexample: the claim quantifies over every proposal id, but a
record_prediction call for an id with no recorded outcome is skipped
entirely — the state is returned unchanged, no outcome record is tagged
and no accuracy EMA entry is touched or created. -/
theorem record_prediction_counterexample :
    record_prediction OutcomeMemory.init "p1" "pass" "pass" (9/10) =
      OutcomeMemory.init ∧
    (record_prediction OutcomeMemory.init "p1" "pass" "pass" (9/10)).prediction_accuracy = [] := by
  constructor
  · rfl
  · rfl

/-- C4 amended: for every call whose proposal id has a recorded outcome,
record_prediction tags that outcome record with "correct" exactly when the
predicted outcome equals the actual outcome (else "incorrect"), and updates
the accuracy EMA of the outcome organization exactly once:
acc2 = acc * 0.8 + (1 if correct else 0) * 0.2, with prior value 0.5 when
the organization has no accuracy value yet.  Calls for unknown ids change
nothing. -/
theorem record_prediction_ema (m : OutcomeMemory)
    (pid predicted actual : String) (conf : ℚ) (o : ProposalOutcome)
    (h : alookup pid m.outcomes = some o) :
    alookup pid (record_prediction m pid predicted actual conf).outcomes =
      some { o with predicted_vs_actual := some (if predicted = actual then "correct" else "incorrect") } ∧
    alookup o.dao (record_prediction m pid predicted actual conf).prediction_accuracy =
      some (((alookup o.dao m.prediction_accuracy).getD (1/2)) * (4/5) +
            (if predicted = actual then (1 : ℚ) else 0) * (1/5)) := by
  simp only [record_prediction, h, update_accuracy_metrics, alookup_aupsert_self]
  constructor
  · trivial
  · split
    · rename_i hdec
      rw [if_pos (of_decide_eq_true hdec)]
    · rename_i hdec
      rw [if_neg (fun hp => hdec (decide_eq_true hp))]

/-- The concrete outcome used by the C4 witness. -/
def c4Outcome : ProposalOutcome :=
  { proposal_id := "p1", dao := "d1", passed := true,
    final_votes := [("for", 100)], participation_rate := 0,
    participation_count := 45, recorded_at := "t1",
    predicted_vs_actual := none }

/-- The concrete outcome store used by the C4 witness. -/
def c4State : OutcomeMemory :=
  { outcomes := [("p1", c4Outcome)], prediction_accuracy := [] }

/-- C4 witness: one correct prediction on a stored outcome from the default
prior accuracy. -/
theorem record_prediction_ema_witness :
    alookup "p1" (record_prediction c4State "p1" "pass" "pass" (9/10)).outcomes =
      some { c4Outcome with predicted_vs_actual := some (if "pass" = "pass" then "correct" else "incorrect") } ∧
    alookup "d1" (record_prediction c4State "p1" "pass" "pass" (9/10)).prediction_accuracy =
      some (((alookup "d1" c4State.prediction_accuracy).getD (1/2)) * (4/5) +
            (if "pass" = "pass" then (1 : ℚ) else 0) * (1/5)) :=
  record_prediction_ema c4State "p1" "pass" "pass" (9/10) c4Outcome rfl

/-! ### C10 — only two risk levels and three confidence values occur -/

/-- C10: for every reasoning context the decision risk is low or medium —
the level "high" of the data model is never produced — and the confidence
is one of exactly 0.5, 0.6 and 0.75. -/
theorem generate_decision_range (ctx : ReasoningContext) :
    ((generate_decision ctx).risk_assessment = "low" ∨
     (generate_decision ctx).risk_assessment = "medium") ∧
    ((generate_decision ctx).confidence = 1/2 ∨
     (generate_decision ctx).confidence = 3/5 ∨
     (generate_decision ctx).confidence = 3/4) := by
  by_cases h1 : meanValues ctx.community_sentiment > 1/2 ∧
      meanValues ctx.historical_preferences > 1/2
  · have hr : (generate_decision ctx).risk_assessment = "low" := by
      simp only [generate_decision]
      rw [if_pos h1]
    have hc : (generate_decision ctx).confidence = 3/4 := by
      simp only [generate_decision]
      rw [if_pos h1]
    exact ⟨Or.inl hr, Or.inr (Or.inr hc)⟩
  · by_cases h2 : meanValues ctx.community_sentiment < -(3/10) ∨
        meanValues ctx.historical_preferences < 3/10
    · have hr : (generate_decision ctx).risk_assessment = "medium" := by
        simp only [generate_decision]
        rw [if_neg h1]
      have hc : (generate_decision ctx).confidence = 3/5 := by
        simp only [generate_decision]
        rw [if_neg h1, if_pos h2]
      exact ⟨Or.inr hr, Or.inr (Or.inl hc)⟩
    · have hr : (generate_decision ctx).risk_assessment = "medium" := by
        simp only [generate_decision]
        rw [if_neg h1]
      have hc : (generate_decision ctx).confidence = 1/2 := by
        simp only [generate_decision]
        rw [if_neg h1, if_neg h2]
      exact ⟨Or.inr hr, Or.inl hc⟩

/-! ### C7 — the full three-branch decision rule -/

/-- C7: for every reasoning context the decision follows the ordered
three-branch rule on the mean sentiment score and the mean preference score
(each 0 when its map is empty): both above 0.5 gives the first voting
option ("for" when the list is empty) with confidence 0.75 and low risk;
otherwise sentiment below -0.3 or preference below 0.3 gives the last
voting option ("against" when empty) with confidence 0.6 and medium risk;
otherwise the second voting option ("abstain" when fewer than two options)
with confidence 0.5 and medium risk; and the alignment score is the mean of
the two signals. -/
theorem generate_decision_spec (ctx : ReasoningContext) :
    (meanValues ctx.community_sentiment > 1/2 ∧
        meanValues ctx.historical_preferences > 1/2 →
      (generate_decision ctx).choice = ctx.voting_options.headD "for" ∧
      (generate_decision ctx).confidence = 3/4 ∧
      (generate_decision ctx).risk_assessment = "low") ∧
    (¬ (meanValues ctx.community_sentiment > 1/2 ∧
        meanValues ctx.historical_preferences > 1/2) →
      (meanValues ctx.community_sentiment < -(3/10) ∨
        meanValues ctx.historical_preferences < 3/10) →
      (generate_decision ctx).choice = ctx.voting_options.getLastD "against" ∧
      (generate_decision ctx).confidence = 3/5 ∧
      (generate_decision ctx).risk_assessment = "medium") ∧
    (¬ (meanValues ctx.community_sentiment > 1/2 ∧
        meanValues ctx.historical_preferences > 1/2) →
      ¬ (meanValues ctx.community_sentiment < -(3/10) ∨
        meanValues ctx.historical_preferences < 3/10) →
      (generate_decision ctx).choice =
        (if ctx.voting_options.length > 1 then ctx.voting_options.getD 1 "abstain"
         else "abstain") ∧
      (generate_decision ctx).confidence = 1/2 ∧
      (generate_decision ctx).risk_assessment = "medium") ∧
    (generate_decision ctx).alignment_with_dao_values =
      (meanValues ctx.community_sentiment + meanValues ctx.historical_preferences) / 2 := by
  refine ⟨?_, ?_, ?_, ?_⟩
  · intro h1
    refine ⟨?_, ?_, ?_⟩ <;>
      · simp only [generate_decision]
        rw [if_pos h1]
  · intro h1 h2
    refine ⟨?_, ?_, ?_⟩ <;>
      · simp only [generate_decision]
        rw [if_neg h1]
        try rw [if_pos h2]
  · intro h1 h2
    refine ⟨?_, ?_, ?_⟩ <;>
      · simp only [generate_decision]
        rw [if_neg h1]
        try rw [if_neg h2]
  · simp only [generate_decision]

/-- The concrete context of the C7 witness: the spec scenario with an empty
voting-option list and both signals at 0.8. -/
def c7Ctx : ReasoningContext :=
  { proposal_id := "prop-1", proposal_title := "t", proposal_body := "b",
    dao := "d1", voting_options := [],
    community_sentiment := [("forum", 4/5)],
    historical_preferences := [("support", 4/5)],
    arguments_for := [], arguments_against := [], expected_impact := "" }

/-- C7 witness: the spec scenario evaluates through the first branch. -/
theorem generate_decision_spec_witness :
    (generate_decision c7Ctx).choice = ([] : List String).headD "for" ∧
    (generate_decision c7Ctx).confidence = 3/4 ∧
    (generate_decision c7Ctx).risk_assessment = "low" :=
  (generate_decision_spec c7Ctx).1
    (by constructor <;> norm_num [meanValues, c7Ctx])

/-! ### C6 — community consensus classifies the unweighted mean -/

/-- Modelled from the spec wording of the consensus table: strict threshold
classification of a sentiment score. -/
def specConsensusLabel (score : ℚ) : String :=
  if score > 3/5 then "strong_support"
  else if score > 1/5 then "moderate_support"
  else if score > -(1/5) then "neutral"
  else if score > -(3/5) then "concern"
  else "strong_opposition"

/-- C6: for every sentiment store and proposal, the consensus label
classifies the unweighted arithmetic mean of all recorded sample scores
regardless of source, with the strict thresholds 0.6 / 0.2 / -0.2 / -0.6;
a proposal with no samples is neutral, and a mean of exactly 0.6 is
moderate_support, not strong_support. -/
theorem community_consensus_spec (m : SentimentMemory) (pid : String) :
    ((alookup pid m.sentiment_entries).getD [] = [] →
      get_community_consensus m pid = "neutral") ∧
    (∀ entries : List SentimentEntry,
      alookup pid m.sentiment_entries = some entries → entries ≠ [] →
      get_community_consensus m pid =
        specConsensusLabel
          ((entries.map SentimentEntry.sentiment_score).sum / (entries.length : ℚ))) ∧
    specConsensusLabel (3/5) = "moderate_support" := by
  refine ⟨?_, ?_, ?_⟩
  · intro h
    simp [get_community_consensus, get_proposal_sentiment, h]
  · intro entries he hne
    simp [get_community_consensus, get_proposal_sentiment, he, hne, specConsensusLabel]
  · norm_num [specConsensusLabel]

/-- C6 witness: a proposal with no recorded samples is classified
neutral. -/
theorem community_consensus_spec_witness :
    get_community_consensus SentimentMemory.init "p1" = "neutral" :=
  (community_consensus_spec SentimentMemory.init "p1").1 rfl

/-! ### C1 — a per-proposal failure aborts the whole batch -/

/-- The per-proposal step of the C1 counterexample: the first proposal
raises during its analysis phase, the other two would succeed. -/
def c1Step (p : String) : Except String Unit :=
  if p = "p1" then Except.error "analysis failure" else Except.ok ()

/-- C1 counterexample: the claim says a failure on one proposal is caught
per proposal and the remaining proposals of the batch are still processed
with the cycle not marked failed.  With three ingested proposals and the
first raising, the cycle processes nothing further and is marked failed:
the single try/except wraps the whole loop and no per-proposal error list
exists. -/
theorem run_cycle_counterexample :
    run_governance_cycle (Except.ok ["p1", "p2", "p3"]) c1Step =
      { processed := [], failed := true } ∧
    ¬ ("p2" ∈ (run_governance_cycle (Except.ok ["p1", "p2", "p3"]) c1Step).processed ∧
       "p3" ∈ (run_governance_cycle (Except.ok ["p1", "p2", "p3"]) c1Step).processed ∧
       (run_governance_cycle (Except.ok ["p1", "p2", "p3"]) c1Step).failed = false) := by
  decide

theorem cycleLoop_error_after (step : String → Except String Unit) :
    ∀ (pre : List String) (p : String) (post : List String) (e : String),
      (∀ q ∈ pre, step q = Except.ok ()) → step p = Except.error e →
      cycleLoop step (pre ++ p :: post) = { processed := pre, failed := true } := by
  intro pre
  induction pre with
  | nil =>
    intro p post e hpre hp
    simp [cycleLoop, hp]
  | cons q rest ih =>
    intro p post e hpre hp
    have hq : step q = Except.ok () := hpre q (List.mem_cons_self q rest)
    simp [cycleLoop, hq,
      ih p post e (fun r hr => hpre r (List.mem_cons_of_mem q hr)) hp]

/-- C1 amended: a failure while processing one proposal of the (up to 3)
batch is not isolated — the exception propagates to the single cycle-level
handler, so the proposals after the failing one are not processed and the
whole cycle is marked failed; no per-proposal error list exists. -/
theorem run_cycle_failure_aborts (proposals pre post : List String) (p e : String)
    (step : String → Except String Unit)
    (hsplit : proposals.take 3 = pre ++ p :: post)
    (hpre : ∀ q ∈ pre, step q = Except.ok ())
    (hp : step p = Except.error e) :
    run_governance_cycle (Except.ok proposals) step =
      { processed := pre, failed := true } := by
  show cycleLoop step (proposals.take 3) = _
  rw [hsplit]
  exact cycleLoop_error_after step pre p post e hpre hp

/-- The per-proposal step of the C1 witness: the second proposal of the
batch raises, the others succeed. -/
def c1WitnessStep (p : String) : Except String Unit :=
  if p = "p2" then Except.error "analysis failure" else Except.ok ()

/-- C1 witness: with the second of three proposals failing, only the first
is processed and the cycle is failed. -/
theorem run_cycle_failure_aborts_witness :
    run_governance_cycle (Except.ok ["p1", "p2", "p3"]) c1WitnessStep =
      { processed := ["p1"], failed := true } :=
  run_cycle_failure_aborts ["p1", "p2", "p3"] ["p1"] ["p3"] "p2" "analysis failure"
    c1WitnessStep rfl
    (by
      intro q hq
      rw [List.mem_singleton] at hq
      subst hq
      rfl)
    rfl

/-! ### C8 — the content hash is 16 hex characters of SHA-256 over the
reasoning text alone -/

theorem compressRound_length (regs : List Nat) (k w : Nat) :
    (compressRound regs k w).length = regs.length := by
  unfold compressRound
  split
  · rfl
  · rfl

theorem foldl_compressRound_length (l : List (Nat × Nat)) :
    ∀ h : List Nat,
      (l.foldl (fun r kw => compressRound r kw.1 kw.2) h).length = h.length := by
  induction l with
  | nil => intro h; rfl
  | cons x xs ih =>
    intro h
    rw [List.foldl_cons, ih, compressRound_length]

theorem compressBlock_length (h b : List Nat) :
    (compressBlock h b).length = h.length := by
  simp only [compressBlock]
  rw [List.length_zipWith, foldl_compressRound_length, Nat.min_self]

theorem foldl_compressBlock_length (bs : List (List Nat)) :
    ∀ h : List Nat, (bs.foldl compressBlock h).length = h.length := by
  induction bs with
  | nil => intro h; rfl
  | cons b rest ih =>
    intro h
    rw [List.foldl_cons, ih, compressBlock_length]

theorem length_flatten_map_const {α β : Type} (f : α → List β) (c : Nat)
    (hf : ∀ x, (f x).length = c) :
    ∀ l : List α, ((l.map f).flatten).length = c * l.length := by
  intro l
  induction l with
  | nil => simp
  | cons x xs ih =>
    simp only [List.map_cons, List.flatten_cons, List.length_append, ih, hf,
      List.length_cons]
    ring

theorem sha256Bytes_length (msg : List Nat) : (sha256Bytes msg).length = 32 := by
  simp only [sha256Bytes]
  rw [length_flatten_map_const
      (fun wo => [(wo >>> 24) &&& 255, (wo >>> 16) &&& 255, (wo >>> 8) &&& 255, wo &&& 255])
      4 (fun _ => rfl),
    foldl_compressBlock_length]
  rfl

theorem sha256HexChars_length (msg : List Nat) :
    (sha256HexChars msg).length = 64 := by
  simp only [sha256HexChars]
  rw [length_flatten_map_const byteToHex 2 (fun _ => rfl), sha256Bytes_length]

/-- C8: for every reasoning text the justification content hash is the
first 16 hexadecimal characters of the SHA-256 digest of the UTF-8 bytes of
the reasoning text alone — a pure, total function of content with no
timestamp or nonce, so byte-identical text always yields the identical
hash; the hash always has exactly 16 characters, and on the empty string it
equals the first 16 hex characters of the standard SHA-256 digest of the
empty message. -/
theorem hash_justification_pure :
    (∀ reasoning : String,
      hash_justification reasoning =
        String.mk ((sha256HexChars (utf8Encode reasoning)).take 16)) ∧
    (∀ reasoning : String, (hash_justification reasoning).length = 16) ∧
    hash_justification "" = "e3b0c44298fc1c14" := by
  refine ⟨fun r => rfl, fun r => ?_, by decide⟩
  have hlen : (hash_justification r).length =
      ((sha256HexChars (utf8Encode r)).take 16).length := rfl
  rw [hlen, List.length_take, sha256HexChars_length]
  omega

/-! ### C9 — transparency score monotonicity and bounds -/

theorem lengthTier_mono {a b : Nat} (h : a ≤ b) :
    (if a > 1000 then (3/10 : ℚ) else if a > 500 then 2/10 else 0) ≤
    (if b > 1000 then (3/10 : ℚ) else if b > 500 then 2/10 else 0) := by
  split_ifs <;> first | (exfalso; omega) | norm_num

theorem sourceTier_mono {a b : Nat} (h : a ≤ b) :
    (if a ≥ 3 then (4/10 : ℚ) else if a ≥ 2 then 3/10 else if a ≥ 1 then 2/10 else 0) ≤
    (if b ≥ 3 then (4/10 : ℚ) else if b ≥ 2 then 3/10 else if b ≥ 1 then 2/10 else 0) := by
  split_ifs <;> first | (exfalso; omega) | norm_num

theorem lengthTier_nonneg (a : Nat) :
    0 ≤ (if a > 1000 then (3/10 : ℚ) else if a > 500 then 2/10 else 0) := by
  split_ifs <;> norm_num

theorem sourceTier_nonneg (a : Nat) :
    0 ≤ (if a ≥ 3 then (4/10 : ℚ) else if a ≥ 2 then 3/10 else if a ≥ 1 then 2/10 else 0) := by
  split_ifs <;> norm_num

/-- C9 amended: the transparency score always lies in [0,1], and it is
monotonically non-decreasing in reasoning length and data-source count
provided the detail-keyword count of the second text is at least that of
the first — without that extra hypothesis the claim fails, because a longer
text containing fewer of the fixed keywords can lose more keyword bonus
than it gains in length tier. -/
theorem transparency_monotone_and_bounded :
    (∀ (r1 r2 : String) (s1 s2 : List (String × String)),
      r1.length ≤ r2.length → s1.length ≤ s2.length →
      keywordCount r1 ≤ keywordCount r2 →
      calculate_transparency_score r1 s1 ≤ calculate_transparency_score r2 s2) ∧
    (∀ (r : String) (s : List (String × String)),
      0 ≤ calculate_transparency_score r s ∧
      calculate_transparency_score r s ≤ 1) := by
  constructor
  · intro r1 r2 s1 s2 hlen hsrc hkw
    simp only [calculate_transparency_score, zero_add]
    apply min_le_min (le_refl 1)
    apply add_le_add
    · apply add_le_add
      · exact lengthTier_mono hlen
      · exact sourceTier_mono hsrc
    · apply min_le_min (le_refl _)
      exact mul_le_mul_of_nonneg_right (Nat.cast_le.mpr hkw) (by norm_num)
  · intro r s
    simp only [calculate_transparency_score, zero_add]
    constructor
    · apply le_min (by norm_num)
      have h1 := lengthTier_nonneg r.length
      have h2 := sourceTier_nonneg s.length
      have h3 : (0 : ℚ) ≤ min (3/10) ((keywordCount r : ℚ) * (5/100)) :=
        le_min (by norm_num) (by positivity)
      linarith
    · exact min_le_left 1 _

/-- The text of the C9 counterexample that carries every detail keyword. -/
def c9KeywordText : String := "analyze consider evidence data pattern trend"

/-- The longer keyword-free text of the C9 counterexample. -/
def c9LongText : String := String.mk (List.replicate 501 'x')

set_option maxRecDepth 8192 in
/-- C9 counterexample: the claim asserts monotonicity in reasoning length
and source count alone.  A 44-character text containing all six detail
keywords scores 0.3, while a 501-character text with no keyword scores only
0.2 with the same (empty) source list, so a longer text with equal source
count gets a strictly smaller score. -/
theorem transparency_counterexample :
    c9KeywordText.length ≤ c9LongText.length ∧
    (([] : List (String × String)).length ≤ ([] : List (String × String)).length) ∧
    ¬ (calculate_transparency_score c9KeywordText [] ≤
       calculate_transparency_score c9LongText []) := by
  refine ⟨by decide, le_refl _, ?_⟩
  have hkc1 : keywordCount c9KeywordText = 6 := by decide
  have hlen1 : c9KeywordText.length = 44 := by decide
  have hkc2 : keywordCount c9LongText = 0 := by decide
  have hlen2 : c9LongText.length = 501 := by decide
  have h1 : calculate_transparency_score c9KeywordText [] = 3/10 := by
    simp only [calculate_transparency_score, hkc1, hlen1, List.length_nil]
    norm_num [min_def]
  have h2 : calculate_transparency_score c9LongText [] = 2/10 := by
    simp only [calculate_transparency_score, hkc2, hlen2, List.length_nil]
    norm_num [min_def]
  rw [h1, h2]
  norm_num

/-- C9 witness: a keyword-bearing longer text with more sources scores at
least as high as the empty text with none. -/
theorem transparency_monotone_witness :
    calculate_transparency_score "" [] ≤
      calculate_transparency_score "evidence" [("a", "b")] :=
  transparency_monotone_and_bounded.1 "" "evidence" [] [("a", "b")]
    (by decide) (by decide) (by decide)
